import Mathlib

/-
Verification of the bibsearch bibliographic index engine against its
natural-language specification.

The embedding follows the source files:
  src/bibsearch/bibdb.py  (BibDB: schema, add, update, update_custom_key,
                           remove, search, query translators)
  src/bibdb.py            (earlier revision of BibDB: search with the
                           empty-term cache replay, the `where` fallback
                           translator)
  src/bibsearch.py        (generate_custom_key, lines 325-348, and the
                           skip-character table, line 323)
  src/config.py, src/bibsearch/config.py (Config.defaults, in particular
                           custom_key_format)

Machinery the repository consumes from outside src/ (the repo module
bibutils, the external pybtex name parser and BibTeX serializer, the
stop-words package) is modelled from the spec; each such definition
carries a doc comment starting with "Modelled from the spec:".

SQLite behaviour that the source relies on is embedded explicitly:
a UNIQUE column admits any number of NULLs (a NULL custom_key never
collides), and when an INSERT violates both UNIQUE column constraints the
reported column is bib.custom_key, not bib.key (SQLite checks the implicit
column-UNIQUE indexes in reverse declaration order). Consequently in
BibDB.add the custom-key-retry signal fires ahead of the
dedup-by-primary-key signal: a duplicate primary key only breaks the loop
once the candidate custom key is free.
-/

deriving instance DecidableEq for Except

namespace Bibsearch

/-! ## Character/string helpers (kernel-reducible replacements for Python
string primitives; all structural recursion, no well-founded recursion, so
that `decide` can evaluate them). -/

def dquote : Char := Char.ofNat 34

def strOf (l : List Char) : String := ⟨l⟩

/-- Python `s.split(sep, 1)` for a single character separator: split at the
first occurrence only; `none` when the separator does not occur (in the
source this case surfaces as a ValueError from 2-ary tuple unpacking). -/
def splitOnceChar (c : Char) : List Char → Option (List Char × List Char)
  | [] => none
  | x :: xs =>
    if x = c then some ([], xs)
    else (splitOnceChar c xs).map (fun p => (x :: p.1, p.2))

def splitOnceStr (c : Char) (s : String) : Option (String × String) :=
  (splitOnceChar c s.data).map (fun p => (strOf p.1, strOf p.2))

/-- Split a character list at every character satisfying `p`; the
separators are dropped and empty runs are kept (never returns `[]`). -/
def splitCharsBy (p : Char → Bool) : List Char → List (List Char)
  | [] => [[]]
  | x :: xs =>
    match splitCharsBy p xs with
    | [] => [[]]
    | y :: ys => if p x then [] :: y :: ys else (x :: y) :: ys

def isWsChar (c : Char) : Bool := c = ' ' || c = '\t' || c = '\n' || c = '\r'

/-- Python `s.split()` with no argument: split on whitespace runs,
discarding empty words. -/
def pySplitWs (s : String) : List String :=
  ((splitCharsBy isWsChar s.data).filter (fun w => !w.isEmpty)).map strOf

def pyLower (s : String) : String := strOf (s.data.map Char.toLower)

def lookupAssoc (m : List (String × String)) (k : String) : Option String :=
  (m.find? (fun p => p.1 == k)).map (fun p => p.2)

/-- The whitespace characters Python `int()` strips from both ends of its
argument (space, tab, newline, carriage return, vertical tab, form feed). -/
def isPyIntStrip (c : Char) : Bool :=
  isWsChar c || c = Char.ofNat 11 || c = Char.ofNat 12

/-- A run of decimal digits with Python's underscore rule: an underscore is
accepted only between two digits ("1_000" is 1000; "_1", "1_" and "1__0"
are ValueErrors). The accumulator carries the value parsed so far. -/
def digitsCore : Nat → List Char → Option Nat
  | acc, [] => some acc
  | acc, c :: rest =>
    if c.isDigit then digitsCore (acc * 10 + (c.toNat - 48)) rest
    else if c = '_' then
      match rest with
      | [] => none
      | d :: _ => if d.isDigit then digitsCore acc rest else none
    else none

def digitsVal (l : List Char) : Option Nat :=
  match l with
  | [] => none
  | c :: _ => if c.isDigit then digitsCore 0 l else none

/-- Python `int(s)`: surrounding whitespace is stripped, an optional sign
('+' or '-') precedes a run of decimal digits with underscores allowed
between digits; `none` models ValueError for malformed input and is also
the result for a missing field (KeyError upstream). int()'s acceptance of
non-ASCII Unicode digits is not modelled. -/
def pyInt (s : String) : Option Int :=
  match ((s.data.dropWhile isPyIntStrip).reverse.dropWhile
      isPyIntStrip).reverse with
  | [] => none
  | c :: rest =>
    if c = '-' then (digitsVal rest).map (fun n => -(n : Int))
    else if c = '+' then (digitsVal rest).map (fun n => (n : Int))
    else (digitsVal (c :: rest)).map (fun n => (n : Int))

/-! ## Python str.format for the key template -/

def openBraceChar : Char := Char.ofNat 123

def closeBraceChar : Char := Char.ofNat 125

/-- Scan up to the closing brace of a placeholder: returns the placeholder
name and the remainder after the closing brace, or `none` when the brace is
never closed (a Python ValueError). -/
def takeBraceName : List Char → (List Char × Option (List Char))
  | [] => ([], none)
  | c :: rest =>
    if c = closeBraceChar then ([], some rest)
    else
      match takeBraceName rest with
      | (n, r) => (c :: n, r)

/-- Fuel-indexed renderer for Python `fmt.format(**subst)` restricted to
plain `\x7bname\x7d` placeholders (the shape of custom_key_format);
an unknown placeholder is a Python KeyError, modelled as `none`. -/
def renderT (subst : List (String × String)) : Nat → List Char → Option (List Char)
  | 0, _ => none
  | _, [] => some []
  | fuel + 1, c :: rest =>
    if c = openBraceChar then
      match takeBraceName rest with
      | (_, none) => none
      | (nm, some r2) =>
        match lookupAssoc subst (strOf nm) with
        | none => none
        | some v => (renderT subst fuel r2).map (fun t => v.data ++ t)
    else (renderT subst fuel rest).map (fun t => c :: t)

def pyFormat (fmt : String) (subst : List (String × String)) : Option String :=
  (renderT subst (fmt.data.length + 1) fmt.data).map strOf

/-! ## Data model -/

/-- A parsed bibliographic entry as the lifecycle layer sees it: the pybtex
Entry is consumed only through its key and its string field dictionary
(spec section 6 treats the parser as a black box producing a Record-shaped
structured value). -/
structure Entry where
  key : String
  fields : List (String × String)
deriving DecidableEq

def getField (e : Entry) (name : String) : Option String :=
  (e.fields.find? (fun p => p.1 == name)).map (fun p => p.2)

def setField (e : Entry) (name v : String) : Entry :=
  { e with fields := (name, v) :: e.fields.filter (fun p => !(p.1 == name)) }

/-- One row of the `bib` table (src/bibsearch/bibdb.py lines 34-42):
`key` and `custom_key` are UNIQUE columns; `custom_key` is nullable and a
NULL never participates in a UNIQUE collision. -/
structure Record where
  key : String
  custom_key : Option String
  author : String
  title : String
  venue : String
  year : String
  fulltext : String
deriving DecidableEq

/-! ## Externals modelled from the spec (repo module bibutils is not under
src/; pybtex and stop_words are third-party collaborators). -/

/-- Modelled from the spec: bibutils.single_entry_to_fulltext, the external
BibTeX serializer consumed as a black box, `serialize(structured value,
optional key override) -> text` (spec section 6). Embedded as a canonical
text form: the effective key, then the fields, joined with control-character
separators that do not occur in bibliographic text. -/
def single_entry_to_fulltext (e : Entry) (okey : Option String) : String :=
  (okey.getD e.key) ++ strOf [Char.ofNat 30] ++
    String.intercalate (strOf [Char.ofNat 30])
      (e.fields.map (fun p => p.1 ++ strOf [Char.ofNat 31] ++ p.2))

/-- Modelled from the spec: bibutils.fulltext_to_single_entry, the external
parser half of the round-trip pair `parse(text) -> structured value`
(spec section 6), inverting `single_entry_to_fulltext`. -/
def fulltext_to_single_entry (s : String) : Entry :=
  match splitCharsBy (fun c => c = Char.ofNat 30) s.data with
  | [] => ⟨"", []⟩
  | k :: fs =>
    ⟨strOf k,
     (fs.filter (fun f => !f.isEmpty)).map (fun f =>
       match splitOnceChar (Char.ofNat 31) f with
       | some (a, b) => (strOf a, strOf b)
       | none => (strOf f, ""))⟩

/-- Modelled from the spec: bibutils.field_to_unicode (bibutils is not under
src/) normalizes a LaTeX-encoded field to Unicode; the spec treats the
normalization as opaque, so it is embedded as the identity on the stored
text, with a missing field giving the empty (falsy) string. -/
def field_to_unicode (e : Entry) (f : String) : String :=
  (getField e f).getD ""

/-- Split a word list at every occurrence of the word `w` (the BibTeX
author-list separator "and"). -/
def splitListOnWord (w : String) (ws : List String) : List (List String) :=
  ws.foldr
    (fun x acc =>
      match acc with
      | [] => [[x]]
      | g :: gs => if x == w then [] :: g :: gs else (x :: g) :: gs)
    [[]]

/-- Modelled from the spec: bibutils.parse_names / the pybtex name parser
(spec section 4.4 step 1 consumes it as "extract first author's surname").
The author field splits into person names at the standalone word "and". -/
def parse_names (author : String) : List String :=
  ((splitListOnWord "and" (pySplitWs author)).filter (fun g => !g.isEmpty)).map
    (fun g => String.intercalate " " g)

/-- Modelled from the spec: pybtex `Person.pretty(template="\x7blast\x7d")` -
the surname of a BibTeX name: the part before the first comma in
"Last, First" form, otherwise the final whitespace-separated word. -/
def name_last (name : String) : String :=
  match splitOnceChar ',' name.data with
  | some (before, _) => strOf before
  | none =>
    match (pySplitWs name).getLast? with
    | some w => w
    | none => name

/-! ## Key generator (src/bibsearch.py lines 323-348) -/

/-- src/bibsearch.py line 323: the translation table deleting the characters
of " `~!@#$%^&*()+=[]\x7b\x7d|\\'\":;,<.>/?" (here the apostrophe is
appended by code point). -/
def custom_key_skip_chars : List Char :=
  (" \x7b\x7d`~!@#$%^&*()+=[]|\\\":;,<.>/?").data ++ [Char.ofNat 39]

/-- Modelled from the spec: custom_key_skip_words is
set(stop_words.get_stop_words("en")) from the external stop-words package
(src/bibsearch.py line 324); the spec (section 4.4 step 3) describes it as a
fixed stop-word set of common short English function words. -/
def custom_key_skip_words : List String :=
  ["a", "an", "the", "and", "or", "but", "if", "then", "of", "in", "on",
   "at", "to", "for", "with", "by", "from", "as", "is", "are", "was",
   "were", "be", "been", "being", "it", "its", "this", "that", "these",
   "those", "he", "she", "they", "we", "you", "i", "his", "her", "their",
   "our", "your", "my", "not", "no", "so", "do", "does", "did", "have",
   "has", "had", "can", "will", "would", "should", "could", "what",
   "which", "who", "how", "when", "where", "why", "all", "any", "some",
   "such"]

def strip_skip (s : String) : String :=
  strOf (s.data.filter (fun c => !(custom_key_skip_chars.contains c)))

/-- generate_custom_key, src/bibsearch.py lines 325-348 (called through
bibutils with the template as an explicit argument in
src/bibsearch/bibdb.py line 233). `none` models the exceptions the caller
swallows: KeyError for a missing year/author/title field, ValueError from
int() on a malformed year, IndexError from indexing an empty author list or
empty title. Suffix level 0 gives the empty suffix; level n gives the n-th
lowercase letter. -/
def generate_custom_key (entry : Entry) (fmt : String) (suffix_level : Nat) :
    Option String := do
  let yearStr ← getField entry "year"
  let year ← pyInt yearStr
  let authorStr ← getField entry "author"
  let all_authors := parse_names authorStr
  let firstAuthor ← all_authors.head?
  let author_surname := strip_skip (pyLower (name_last firstAuthor))
  let etAl := if all_authors.length > 1 then "_etAl" else ""
  let titleStr ← getField entry "title"
  let filtered_title :=
    ((pySplitWs titleStr).map pyLower).filter
      (fun w => !(custom_key_skip_words.contains w))
  let tw0 ←
    match filtered_title with
    | w :: _ => some w
    | [] => (titleStr.data.head?).map (fun c => strOf [c])
  let title_word := strip_skip tw0
  pyFormat fmt
    [("surname", author_surname), ("et_al", etAl), ("year", toString year),
     ("short_year", toString (year % 100)),
     ("suffix",
      if suffix_level = 0 then "" else strOf [Char.ofNat (96 + suffix_level)]),
     ("title", title_word)]

/-- Config.defaults custom_key_format, src/config.py line 13 and
src/bibsearch/config.py line 15. -/
def defaultKeyFormat : String := "{surname}{year}{suffix}:{title}"

/-! ## Entry lifecycle: BibDB.add (src/bibsearch/bibdb.py lines 211-264) -/

structure AddOutcome where
  added : Bool
  store : List Record
  warned : Bool
deriving DecidableEq

/-- The UNIQUE check on the `key` column: would inserting a row with this
primary key collide. -/
def keyTaken (store : List Record) (k : String) : Bool :=
  store.any (fun r => r.key == k)

/-- The UNIQUE check on the nullable `custom_key` column: a NULL (none)
candidate never collides, and stored NULLs never collide with anything
(SQLite UNIQUE semantics). -/
def customTaken (store : List Record) (ck : Option String) : Bool :=
  match ck with
  | none => false
  | some c => store.any (fun r => r.custom_key == some c)

/-- The entry mutations BibDB.add performs before its insert loop
(src/bibsearch/bibdb.py lines 215-221): default a missing/empty author to
"UNKNOWN" and record the original key in the fields. -/
def addPrep (entry : Entry) : Entry :=
  let e1 :=
    match getField entry "author" with
    | none => setField entry "author" "UNKNOWN"
    | some a => if a == "" then setField entry "author" "UNKNOWN" else entry
  setField e1 "original_key" entry.key

/-- src/bibsearch/bibdb.py lines 224-226: venue is the journal field,
falling back to booktitle when that is empty/missing. -/
def addVenue (e2 : Entry) : String :=
  let v := field_to_unicode e2 "journal"
  if v == "" then field_to_unicode e2 "booktitle" else v

/-- Python `str(entry.fields.get("year"))` (src/bibsearch/bibdb.py line
246): the string "None" is stored when the field is missing. -/
def addYearStr (e2 : Entry) : String :=
  match getField e2 "year" with
  | some y => y
  | none => "None"

/-- The `while not added` loop of BibDB.add (src/bibsearch/bibdb.py lines
227-264). `fuel` makes the unbounded Python loop a total function: `none`
models non-termination (reachable in the source when every candidate,
including the primary-key fallback, collides on custom_key). Per
iteration: when the attempt counter is below 27 the key generator runs
with its exceptions swallowed (a failure leaves the candidate as Python
None); at 27 and above the original key is used verbatim and a warning is
logged. When the INSERT violates both UNIQUE columns, SQLite reports
`bib.custom_key`, not `bib.key` (the implicit column-UNIQUE indexes are
checked in reverse declaration order - verified against sqlite3), so a
custom-key collision increments the counter and retries even when the
primary key is also a duplicate; the `bib.key` violation is seen - and
breaks out of the loop with added = False - only once the candidate
custom key is free. -/
def addLoop (fmt : String) (e2 : Entry) (origKey utfA utfT utfV yearS : String)
    (store : List Record) : Nat → Nat → Bool → Option AddOutcome
  | 0, _, _ => none
  | fuel + 1, tries, warned =>
    let genAttempt : Option String :=
      if tries < 27 then generate_custom_key e2 fmt tries else some origKey
    let warned2 : Bool := if tries < 27 then warned else true
    if customTaken store genAttempt then
      addLoop fmt e2 origKey utfA utfT utfV yearS store fuel (tries + 1) warned2
    else if keyTaken store origKey then some ⟨false, store, warned2⟩
    else
      some ⟨true,
        store ++
          [⟨origKey, genAttempt, utfA, utfT, utfV, yearS,
            single_entry_to_fulltext e2 genAttempt⟩],
        warned2⟩

def addFuel : Nat := 60

/-- BibDB.add, src/bibsearch/bibdb.py lines 211-264: reject an empty key,
prepare the entry, then run the insert/retry loop from attempt 0. -/
def BibDB.add (fmt : String) (store : List Record) (entry : Entry) :
    Option AddOutcome :=
  if entry.key == "" then some ⟨false, store, false⟩
  else
    let e2 := addPrep entry
    addLoop fmt e2 entry.key (field_to_unicode e2 "author")
      (field_to_unicode e2 "title") (addVenue e2) (addYearStr e2) store
      addFuel 0 false

/-! ## BibDB.update_custom_key (src/bibsearch/bibdb.py lines 266-278) -/

inductive RenameOutcome where
  | ok (store : List Record)
  | procExitOne (store : List Record)
  | pyError (store : List Record)
deriving DecidableEq

/-- BibDB.update_custom_key, src/bibsearch/bibdb.py lines 266-278: fetch the
row by primary key (`fetchone()[0]` on a missing row is a TypeError,
modelled as pyError), deserialize its fulltext, set the new key, then UPDATE
custom_key and fulltext. The bare `except:` around the UPDATE catches the
UNIQUE violation that occurs when a different row already holds the new
custom key, logs, and calls sys.exit(1) - modelled as procExitOne with the
store untouched (the failed UPDATE changes no rows). -/
def BibDB.update_custom_key (store : List Record)
    (original_key new_custom_key : String) : RenameOutcome :=
  match store.find? (fun r => r.key == original_key) with
  | none => .pyError store
  | some r =>
    let entry := fulltext_to_single_entry r.fulltext
    let entry2 : Entry := { entry with key := new_custom_key }
    if store.any (fun q =>
        !(q.key == original_key) && (q.custom_key == some new_custom_key)) then
      .procExitOne store
    else
      .ok (store.map (fun q =>
        if q.key == original_key then
          { q with custom_key := some new_custom_key,
                   fulltext := single_entry_to_fulltext entry2 none }
        else q))

/-! ## BibDB.update (src/bibsearch/bibdb.py lines 280-312) -/

inductive UpdateOutcome where
  | done (ret : Option Bool) (store : List Record)
  | pyError (store : List Record)
deriving DecidableEq

/-- BibDB.update, src/bibsearch/bibdb.py lines 280-312: an empty entry key
returns False; a missing original_key field is a KeyError (pyError); the
UPDATE sets custom_key to the entry's current key together with the
denormalized fields, keyed on the immutable original key. A UNIQUE
violation on bib.custom_key is caught and merely logged, leaving the store
unchanged; the function body then falls through returning Python None. -/
def BibDB.update (store : List Record) (entry : Entry) : UpdateOutcome :=
  if entry.key == "" then .done (some false) store
  else
    match getField entry "original_key" with
    | none => .pyError store
    | some origKey =>
      if store.any (fun q =>
          !(q.key == origKey) && (q.custom_key == some entry.key)) then
        .done none store
      else
        .done none (store.map (fun q =>
          if q.key == origKey then
            { q with custom_key := some entry.key,
                     author := field_to_unicode entry "author",
                     title := field_to_unicode entry "title",
                     venue := addVenue entry,
                     year := addYearStr entry,
                     fulltext := single_entry_to_fulltext entry none }
          else q))

/-- BibDB.remove, src/bibsearch/bibdb.py lines 206-209: DELETE FROM bib
WHERE key=? or custom_key=? (a stored NULL custom_key never matches). -/
def BibDB.remove (store : List Record) (k : String) : List Record :=
  store.filter (fun r => !(r.key == k || r.custom_key == some k))

/-! ## Query translators -/

inductive QErr where
  | valueError
  | indexError
deriving DecidableEq

/-- The field-qualifier test of the full-text translator
(src/bibsearch/bibdb.py lines 123-127, src/bibdb.py lines 113-117): note
that the "year" alternative is tested without a colon. -/
def ftsFieldGuard (t : String) : Bool :=
  ("author:").data.isPrefixOf t.data || ("key:").data.isPrefixOf t.data ||
  ("title:").data.isPrefixOf t.data || ("venue:").data.isPrefixOf t.data ||
  ("year").data.isPrefixOf t.data

def quoteWrap (s : String) : String := strOf (dquote :: s.data ++ [dquote])

/-- One term of the full-text translator (the loop body shared verbatim by
BibDB._format_query, src/bibdb.py lines 105-130, and
BibDB._format_query_fts, src/bibsearch/bibdb.py lines 115-140). A macro
substitutes verbatim; a field-qualified term splits at the first colon
(ValueError when "year"-prefixed input has no colon) and quotes the value
(IndexError on an empty value); an unqualified term is quoted as a whole
phrase unless its first and last characters are already quotes (IndexError
on the empty term). -/
def processFtsTerm (macros : List (String × String)) (t : String) :
    Except QErr String :=
  match lookupAssoc macros t with
  | some m => .ok m
  | none =>
    if ftsFieldGuard t then
      match splitOnceStr ':' t with
      | none => .error .valueError
      | some (specifier, query) =>
        match query.data with
        | [] => .error .indexError
        | qc :: qrest =>
          let quoted :=
            if qc = dquote ∧ (qc :: qrest).getLast? = some dquote then query
            else quoteWrap query
          if specifier == "key" then
            .ok ("(key:" ++ quoted ++ " OR custom_key:" ++ quoted ++ ")")
          else .ok (specifier ++ ":" ++ quoted)
    else
      match t.data with
      | [] => .error .indexError
      | c :: rest =>
        if c ≠ dquote ∧ (c :: rest).getLast? ≠ some dquote then
          .ok (quoteWrap t)
        else .ok t

/-- The translator loop: process the terms left to right, propagating the
first exception. -/
def processFtsTerms (macros : List (String × String)) :
    List String → Except QErr (List String)
  | [] => .ok []
  | t :: ts =>
    match processFtsTerm macros t with
    | .error e => .error e
    | .ok s => (processFtsTerms macros ts).map (fun rest => s :: rest)

/-- BibDB._format_query / BibDB._format_query_fts: process each term and
join with " AND ". -/
def formatQueryFts (macros : List (String × String)) (terms : List String) :
    Except QErr String :=
  (processFtsTerms macros terms).map (String.intercalate " AND ")

/-- The field-qualifier test of the LIKE fallback translator
(src/bibsearch/bibdb.py lines 146-148): every alternative, including year,
is tested with its colon. -/
def noFtsFieldGuard (t : String) : Bool :=
  (["author", "title", "venue", "year", "key"]).any
    (fun c => (c ++ ":").data.isPrefixOf t.data)

/-- One term of BibDB._format_query_no_fts (src/bibsearch/bibdb.py lines
142-164): an unqualified term becomes an OR of LIKE patterns over all
columns including both keys; a qualified term becomes a single LIKE on the
named column (or the two-column key case), with %-wrapped bound values. -/
def processNoFtsTerm (t : String) : Except QErr (String × List String) :=
  if !(noFtsFieldGuard t) then
    .ok ("(" ++
      String.intercalate " OR "
        ((["author", "title", "venue", "year", "key", "custom_key"]).map
          (fun c => "(" ++ c ++ " LIKE ?)")) ++ ")",
      (["author", "title", "venue", "year", "key", "custom_key"]).map
        (fun _ => "%" ++ t ++ "%"))
  else
    match splitOnceStr ':' t with
    | none => .error .valueError
    | some (specifier, query) =>
      let wildquery := "%" ++ query ++ "%"
      if specifier == "key" then
        .ok ("((key LIKE ?) OR (custom_key LIKE ?))", [wildquery, wildquery])
      else .ok ("(" ++ specifier ++ " LIKE ?)", [wildquery])

def processNoFtsTerms : List String → Except QErr (List (String × List String))
  | [] => .ok []
  | t :: ts =>
    match processNoFtsTerm t with
    | .error e => .error e
    | .ok p => (processNoFtsTerms ts).map (fun rest => p :: rest)

/-- BibDB._format_query_no_fts: the joined WHERE clause and the bound
values in loop order. -/
def formatQueryNoFts (terms : List String) :
    Except QErr (String × List String) :=
  (processNoFtsTerms terms).map (fun ps =>
    (String.intercalate " AND " (ps.map (fun p => p.1)),
     (ps.map (fun p => p.2)).flatten))

/-- Python str.maketrans("*", "%") + translate in BibDB.where
(src/bibdb.py line 161): user wildcard to LIKE wildcard. -/
def translStar (s : String) : String :=
  strOf (s.data.map (fun c => if c = '*' then '%' else c))

inductive WhereErr where
  | exitOne
deriving DecidableEq

/-- One term of BibDB.where (src/bibdb.py lines 158-187): a term without a
colon is a malformed-term error (logged, sys.exit(1)); a known column gives
a LIKE predicate (key matches either key column); an unknown column is an
"Unknown search field" error (logged, sys.exit(1)). -/
def processWhereTerm (t : String) : Except WhereErr (String × List String) :=
  match splitOnceStr ':' t with
  | none => .error .exitOne
  | some (column, query0) =>
    let query := translStar query0
    if column == "key" then
      .ok ("(key LIKE ? OR custom_key LIKE ?)", [query, query])
    else if column == "author" then .ok ("(author LIKE ?)", [query])
    else if column == "title" then .ok ("(title LIKE ?)", [query])
    else if column == "venue" then .ok ("(venue LIKE ?)", [query])
    else if column == "year" then .ok ("(year LIKE ?)", [query])
    else .error .exitOne

def whereTranslate : List String → Except WhereErr (List (String × List String))
  | [] => .ok []
  | t :: ts =>
    match processWhereTerm t with
    | .error e => .error e
    | .ok p => (whereTranslate ts).map (fun rest => p :: rest)

/-! ## Search and the result cache -/

/-- One observable step of a search call: the Python return value (None or
a list of (fulltext, key) rows), the resulting cache state (none models "no
lastSearch.yml file"), and the match expression sent to the backend, if the
backend was queried at all. -/
structure SearchStep where
  result : Option (List (String × String))
  cache : Option (List (String × String))
  executed : Option String
deriving DecidableEq

/-- BibDB.search of src/bibdb.py (lines 133-156): an empty term list loads
the search cache (Python None when no cache file exists) and touches
neither the backend nor the cache file; otherwise the term list is
translated (translator exceptions propagate), executed against the
full-text index - abstracted as `engine`, the row set the backend returns
for a match expression - and the raw rows overwrite the cache
unconditionally. The sqlite3.OperationalError branches for a missing fts5
module concern the environment, not the store state, and are outside this
model. -/
def searchV1 (engine : String → List (String × String))
    (macros : List (String × String))
    (cache : Option (List (String × String))) (terms : List String) :
    Except QErr SearchStep :=
  if terms.isEmpty then .ok ⟨cache, cache, none⟩
  else
    match formatQueryFts macros terms with
    | .error e => .error e
    | .ok expr =>
      let rs := engine expr
      .ok ⟨some rs, some rs, some expr⟩

/-- BibDB.search of src/bibsearch/bibdb.py (lines 166-186): no special case
for an empty term list - the query is always translated and executed
(against the fts index when has_fts, else against the LIKE fallback,
abstracted as `engineLike`), and the rows overwrite the cache
unconditionally. -/
def searchV2 (hasFts : Bool) (engine : String → List (String × String))
    (engineLike : String → List String → List (String × String))
    (macros : List (String × String))
    (cache : Option (List (String × String))) (terms : List String) :
    Except QErr SearchStep :=
  if hasFts then
    match formatQueryFts macros terms with
    | .error e => .error e
    | .ok expr =>
      let rs := engine expr
      .ok ⟨some rs, some rs, some expr⟩
  else
    match formatQueryNoFts terms with
    | .error e => .error e
    | .ok wv =>
      let rs := engineLike wv.1 wv.2
      .ok ⟨some rs, some rs, some wv.1⟩

/-! ## Lifecycle sequences and the uniqueness invariant -/

inductive LifeOp where
  | ins (e : Entry)
  | renameKey (origKey newKey : String)
  | edit (e : Entry)
  | rm (k : String)

/-- The store left behind by one lifecycle operation (the error outcomes
leave the store untouched; a diverging add never returns a store and is
identified with the unchanged one). -/
def applyOp (fmt : String) (store : List Record) : LifeOp → List Record
  | .ins e =>
    match BibDB.add fmt store e with
    | some o => o.store
    | none => store
  | .renameKey a b =>
    match BibDB.update_custom_key store a b with
    | .ok s => s
    | .procExitOne s => s
    | .pyError s => s
  | .edit e =>
    match BibDB.update store e with
    | .done _ s => s
    | .pyError s => s
  | .rm k => BibDB.remove store k

def applyOps (fmt : String) (store : List Record) (ops : List LifeOp) :
    List Record :=
  ops.foldl (applyOp fmt) store

/-- Two live records with distinct primary keys that do not share a
(non-null) custom key; sharing NULL is not sharing a custom key, matching
the UNIQUE-column semantics the schema enforces. -/
def RecDistinct (a b : Record) : Prop :=
  a.key ≠ b.key ∧ (a.custom_key = b.custom_key → a.custom_key = none)

/-- The spec's uniqueness invariant over a store. -/
def UniqKeys (store : List Record) : Prop :=
  store.Pairwise RecDistinct

/-! ## Helper lemmas for the uniqueness invariant -/

lemma recDistinct_of_not_taken {store : List Record} {rec : Record}
    (hk : keyTaken store rec.key = false)
    (hc : customTaken store rec.custom_key = false) :
    ∀ a ∈ store, RecDistinct a rec := by
  intro a ha
  simp only [keyTaken, List.any_eq_false, beq_iff_eq] at hk
  constructor
  · exact fun h => hk a ha (h ▸ rfl)
  · intro hck
    rcases hrc : rec.custom_key with _ | c
    · rw [hck, hrc]
    · exfalso
      rw [hrc] at hc
      simp only [customTaken, List.any_eq_false, beq_iff_eq] at hc
      exact hc a ha (by rw [hck, hrc])

lemma uniqKeys_addLoop (fmt : String) (e2 : Entry)
    (oK uA uT uV yS : String) (store : List Record) (h : UniqKeys store) :
    ∀ fuel tries warned out,
      addLoop fmt e2 oK uA uT uV yS store fuel tries warned = some out →
      UniqKeys out.store := by
  intro fuel
  induction fuel with
  | zero => intro tries warned out hout; simp [addLoop] at hout
  | succ n ih =>
    intro tries warned out hout
    simp only [addLoop] at hout
    by_cases h2 : customTaken store
        (if tries < 27 then generate_custom_key e2 fmt tries else some oK)
    · rw [if_pos h2] at hout
      exact ih (tries + 1) _ out hout
    · rw [if_neg h2] at hout
      by_cases h1 : keyTaken store oK
      · rw [if_pos h1] at hout
        cases hout
        exact h
      · rw [if_neg h1] at hout
        cases hout
        rw [UniqKeys, List.pairwise_append]
        refine ⟨h, List.pairwise_singleton _ _, ?_⟩
        intro a ha b hb
        rw [List.mem_singleton] at hb
        subst hb
        exact recDistinct_of_not_taken (Bool.eq_false_iff.mpr h1)
          (Bool.eq_false_iff.mpr h2) a ha

lemma uniqKeys_add (fmt : String) (store : List Record) (e : Entry)
    (o : AddOutcome) (h : UniqKeys store)
    (hadd : BibDB.add fmt store e = some o) : UniqKeys o.store := by
  unfold BibDB.add at hadd
  by_cases hk : e.key == ""
  · rw [if_pos hk] at hadd
    cases hadd
    exact h
  · rw [if_neg hk] at hadd
    exact uniqKeys_addLoop fmt _ _ _ _ _ _ store h addFuel 0 false o hadd

lemma uniqKeys_map_setCustom (store : List Record) (oK nK : String)
    (g : Record → Record)
    (hgk : ∀ r, (g r).key = r.key)
    (hgc : ∀ r, (g r).custom_key = some nK)
    (h : UniqKeys store)
    (hfree : ∀ q ∈ store, q.key ≠ oK → q.custom_key ≠ some nK) :
    UniqKeys (store.map (fun q => if q.key == oK then g q else q)) := by
  rw [UniqKeys, List.pairwise_map]
  refine List.Pairwise.imp_of_mem ?_ h
  intro a b ha hb hab
  by_cases ha1 : (a.key == oK) = true
  · by_cases hb1 : (b.key == oK) = true
    · exfalso
      exact hab.1 ((beq_iff_eq.mp ha1).trans (beq_iff_eq.mp hb1).symm)
    · rw [if_pos ha1, if_neg hb1]
      refine ⟨by rw [hgk a]; exact hab.1, ?_⟩
      intro hck
      exfalso
      apply hfree b hb (by simpa using hb1)
      rw [← hck, hgc a]
  · by_cases hb1 : (b.key == oK) = true
    · rw [if_neg ha1, if_pos hb1]
      refine ⟨by rw [hgk b]; exact hab.1, ?_⟩
      intro hck
      exfalso
      apply hfree a ha (by simpa using ha1)
      rw [hck, hgc b]
    · rw [if_neg ha1, if_neg hb1]
      exact hab

lemma any_conflict_false {store : List Record} {oK nK : String}
    (hg : ¬ store.any (fun q =>
      !(q.key == oK) && (q.custom_key == some nK)) = true) :
    ∀ q ∈ store, q.key ≠ oK → q.custom_key ≠ some nK := by
  intro q hq hk hc
  apply hg
  rw [List.any_eq_true]
  refine ⟨q, hq, ?_⟩
  simp [hk, hc]

lemma uniqKeys_update_custom_key (store : List Record) (a b : String)
    (h : UniqKeys store) :
    UniqKeys
      (match BibDB.update_custom_key store a b with
       | .ok s => s
       | .procExitOne s => s
       | .pyError s => s) := by
  unfold BibDB.update_custom_key
  rcases hf : store.find? (fun r => r.key == a) with _ | r
  · simp only [hf]
    exact h
  · simp only [hf]
    by_cases hg : (store.any fun q =>
        !(q.key == a) && (q.custom_key == some b)) = true
    · rw [if_pos hg]
      exact h
    · rw [if_neg hg]
      exact uniqKeys_map_setCustom store a b _ (fun _ => rfl) (fun _ => rfl) h
        (any_conflict_false hg)

lemma uniqKeys_update (store : List Record) (e : Entry) (h : UniqKeys store) :
    UniqKeys
      (match BibDB.update store e with
       | .done _ s => s
       | .pyError s => s) := by
  unfold BibDB.update
  by_cases hk : (e.key == "") = true
  · rw [if_pos hk]; exact h
  · rw [if_neg hk]
    rcases ho : getField e "original_key" with _ | origKey
    · simp only [ho]
      exact h
    · simp only [ho]
      by_cases hg : (store.any fun q =>
          !(q.key == origKey) && (q.custom_key == some e.key)) = true
      · rw [if_pos hg]
        exact h
      · rw [if_neg hg]
        exact uniqKeys_map_setCustom store origKey e.key _ (fun _ => rfl)
          (fun _ => rfl) h (any_conflict_false hg)

lemma uniqKeys_applyOp (fmt : String) (store : List Record) (op : LifeOp)
    (h : UniqKeys store) : UniqKeys (applyOp fmt store op) := by
  cases op with
  | ins e =>
    rcases hadd : BibDB.add fmt store e with _ | o
    · simpa [applyOp, hadd] using h
    · simpa [applyOp, hadd] using uniqKeys_add fmt store e o h hadd
  | renameKey a b => exact uniqKeys_update_custom_key store a b h
  | edit e => exact uniqKeys_update store e h
  | rm k => exact List.Pairwise.filter _ h

lemma uniqKeys_applyOps (fmt : String) (ops : List LifeOp) :
    ∀ store, UniqKeys store → UniqKeys (applyOps fmt store ops) := by
  induction ops with
  | nil => intro store h; exact h
  | cons op rest ih =>
    intro store h
    exact ih (applyOp fmt store op) (uniqKeys_applyOp fmt store op h)

/-- C1: Key uniqueness invariant. Starting from the freshly created (empty)
store, after every sequence of lifecycle operations - insert (BibDB.add),
custom-key rename (BibDB.update_custom_key), field update (BibDB.update)
and remove (BibDB.remove) - no two live records share a primary key and no
two live records share a (non-null) custom key; in particular every
successful insert preserves the invariant. -/
theorem key_uniqueness_invariant (fmt : String) (ops : List LifeOp) :
    UniqKeys (applyOps fmt [] ops) :=
  uniqKeys_applyOps fmt ops [] (List.Pairwise.nil)

/-! ## C3: the default-template key composition -/

def smithA : Entry :=
  ⟨"smith20",
   [("author", "Smith, John"), ("title", "Deep Wide Networks"),
    ("year", "2020")]⟩

def smithB : Entry :=
  ⟨"smith20b",
   [("author", "Smith, John"), ("title", "Deep Wide Networks"),
    ("year", "2020")]⟩

/-- The store after inserting smithA into the empty store. -/
def smithStore1 : List Record :=
  match BibDB.add defaultKeyFormat [] smithA with
  | some o => o.store
  | none => []

/-- C3 counterexample: with the configured default template
"\x7bsurname\x7d\x7byear\x7d\x7bsuffix\x7d:\x7btitle\x7d" (full year and a
colon separator, src/config.py line 13 and src/bibsearch/config.py line
15), inserting the Smith/2020/"Deep Wide Networks" record into the empty
store yields custom_key "smith2020:deep", not the "smith20_deep" the claim
asserts. -/
theorem default_template_key_counterexample :
    (BibDB.add defaultKeyFormat [] smithA).map
        (fun o => (o.added, o.store.map (fun r => r.custom_key))) =
      some (true, [some "smith2020:deep"]) ∧
    some "smith2020:deep" ≠ some "smith20_deep" := by
  constructor
  · decide
  · decide

/-- C3 as amended: with the actual default template (full year, colon
separator), the first insert succeeds with custom_key "smith2020:deep" and
a second record with a distinct primary key but the same surname, year and
title word succeeds with the escalated key "smith2020a:deep". -/
theorem default_template_key_composition :
    ((BibDB.add defaultKeyFormat [] smithA).map
        (fun o => (o.added, o.store.map (fun r => r.custom_key))) =
      some (true, [some "smith2020:deep"])) ∧
    ((BibDB.add defaultKeyFormat smithStore1 smithB).map
        (fun o => (o.added, o.store.map (fun r => r.custom_key))) =
      some (true, [some "smith2020:deep", some "smith2020a:deep"])) := by
  constructor
  · decide
  · decide

/-! ## C4: the collision ceiling -/

def smithFresh : Entry :=
  ⟨"fresh27",
   [("author", "Smith, John"), ("title", "Deep Wide Networks"),
    ("year", "2020")]⟩

def smithCK (i : Nat) : Option String :=
  generate_custom_key (addPrep smithFresh) defaultKeyFormat i

/-- A store holding n records with pairwise-distinct primary keys whose
custom keys are exactly the generator's candidates at suffix levels
0 .. n-1 for the Smith/2020/deep metadata. -/
def smithStoreN (n : Nat) : List Record :=
  (List.range n).map (fun i =>
    ⟨"k" ++ toString i, smithCK i, "Smith, John", "Deep Wide Networks", "",
     "2020", "ft"⟩)

/-- C4 counterexample: with 26 colliding records (suffix levels 0-25, i.e.
the empty suffix and letters a-y) the attempt counter does reach 26, yet
the record is inserted with the generated key "smith2020z:deep" - not with
its primary key "fresh27" - and no warning is raised, so the fallback does
not fire when the counter reaches 26. -/
theorem collision_ceiling_counterexample :
    ((BibDB.add defaultKeyFormat (smithStoreN 26) smithFresh).map
        (fun o => (o.added, o.warned,
          (o.store.map (fun r => r.custom_key)).getLast?)) =
      some (true, false, some (some "smith2020z:deep"))) ∧
    some "smith2020z:deep" ≠ some "fresh27" := by
  constructor
  · decide
  · decide

/-- C4 as amended: the generator is retried with increasing attempt number,
and the fallback fires exactly when the counter reaches 27 (the source
guard is `custom_key_tries < 27`): with all 27 generated candidates (empty
suffix plus a-z) taken, the record is inserted with its primary key
"fresh27" verbatim as custom_key and the warning is raised. -/
theorem collision_ceiling_fallback_at_27 :
    (BibDB.add defaultKeyFormat (smithStoreN 27) smithFresh).map
        (fun o => (o.added, o.warned,
          (o.store.map (fun r => r.custom_key)).getLast?)) =
      some (true, true, some (some "fresh27")) := by
  decide

/-! ## C2: dedup on a duplicate primary key -/

/-- Every terminating run of the insert loop over a store that already
holds the primary key is a no-op: custom-key collisions only retry, and
the eventual bib.key violation (or any path out) returns added = false
with the store untouched. -/
lemma addLoop_dup (fmt : String) (e2 : Entry) (oK uA uT uV yS : String)
    (store : List Record) (hkT : keyTaken store oK = true) :
    ∀ fuel tries warned out,
      addLoop fmt e2 oK uA uT uV yS store fuel tries warned = some out →
      out.added = false ∧ out.store = store := by
  intro fuel
  induction fuel with
  | zero => intro tries warned out hout; simp [addLoop] at hout
  | succ n ih =>
    intro tries warned out hout
    simp only [addLoop] at hout
    by_cases h2 : customTaken store
        (if tries < 27 then generate_custom_key e2 fmt tries else some oK)
    · rw [if_pos h2] at hout
      exact ih (tries + 1) _ out hout
    · rw [if_neg h2, if_pos hkT] at hout
      cases hout
      exact ⟨rfl, rfl⟩

/-- A record whose primary key is smithFresh's key "fresh27" but whose
custom key is unrelated. -/
def dupRec : Record := ⟨"fresh27", some "otherck", "", "", "", "", "ft"⟩

/-- A store that holds the primary key "fresh27" (via dupRec) while all 27
generated custom-key candidates for smithFresh's metadata are taken by
other rows. -/
def dupStore : List Record := smithStoreN 27 ++ [dupRec]

/-- C2 counterexample: inserting an entry whose primary key is already
live does perform custom-key retries before breaking: on dupStore all 27
generated candidates collide on bib.custom_key first (SQLite reports
bib.custom_key, not bib.key, when both columns collide), the attempt
counter climbs to 27, the fallback branch logs its warning, and only then
does the bib.key violation break the loop - so add returns
added = false with warned = true, refuting "no custom_key retry is
attempted for it" (and the warned = false, first-attempt-break reading).
The store is still unchanged. -/
theorem add_duplicate_primary_key_counterexample :
    (BibDB.add defaultKeyFormat dupStore smithFresh =
      some ⟨false, dupStore, true⟩) ∧
    some (⟨false, dupStore, true⟩ : AddOutcome) ≠
      some ⟨false, dupStore, false⟩ := by
  constructor
  · decide
  · decide

/-- C2 as amended: for every store state and entry whose primary key
already exists among the live records, whenever BibDB.add returns it
returns added = false with the store - row count and existing record
included - completely unchanged, and the duplicate is never surfaced as an
error; but custom-key retries may be attempted first, because the
bib.custom_key violation is reported ahead of bib.key, so the collision
warning can fire and (when every candidate collides) the loop need not
terminate at all. -/
theorem add_duplicate_primary_key_noop (fmt : String) (store : List Record)
    (e : Entry) (h : ∃ r ∈ store, r.key = e.key) (out : AddOutcome)
    (hadd : BibDB.add fmt store e = some out) :
    out.added = false ∧ out.store = store := by
  unfold BibDB.add at hadd
  by_cases hk : (e.key == "") = true
  · rw [if_pos hk] at hadd
    cases hadd
    exact ⟨rfl, rfl⟩
  · rw [if_neg hk] at hadd
    have hkT : keyTaken store e.key = true := by
      rw [keyTaken, List.any_eq_true]
      obtain ⟨r, hr, hre⟩ := h
      exact ⟨r, hr, by simp [hre]⟩
    exact addLoop_dup fmt _ e.key _ _ _ _ store hkT addFuel 0 false out hadd

def recX : Record := ⟨"x", some "cx", "a", "t", "v", "2000", "fx"⟩

def entryX : Entry := ⟨"x", [("title", "T")]⟩

/-- Witness for C2 at a concrete duplicate insert. -/
theorem add_duplicate_primary_key_noop_witness :
    (∃ r ∈ [recX], r.key = entryX.key) ∧
    (BibDB.add defaultKeyFormat [recX] entryX =
      some ⟨false, [recX], false⟩) ∧
    ((⟨false, [recX], false⟩ : AddOutcome).added = false ∧
     (⟨false, [recX], false⟩ : AddOutcome).store = [recX]) :=
  ⟨by decide, by decide,
   add_duplicate_primary_key_noop defaultKeyFormat [recX] entryX (by decide)
     ⟨false, [recX], false⟩ (by decide)⟩

/-! ## C5: key-generation failure -/

lemma addLoop_first_success (fmt : String) (e2 : Entry)
    (oK uA uT uV yS : String) (store : List Record) (n : Nat)
    (hkT : keyTaken store oK = false)
    (hcT : customTaken store (generate_custom_key e2 fmt 0) = false) :
    addLoop fmt e2 oK uA uT uV yS store (n + 1) 0 false =
      some ⟨true,
        store ++ [⟨oK, generate_custom_key e2 fmt 0, uA, uT, uV, yS,
          single_entry_to_fulltext e2 (generate_custom_key e2 fmt 0)⟩],
        false⟩ := by
  simp [addLoop, hkT, hcT]

/-- C5 as amended: when the key generator fails on the prepared entry
(missing or malformed year/author/title metadata) and the primary key is
free, the insert does not fail - but the record is stored with a NULL
custom_key (the generation exception is silently swallowed and Python None
is bound into the custom_key column, which never collides), not with the
primary key as custom_key; no warning is raised and no retry happens. -/
theorem add_keygen_failure_null_custom_key (fmt : String)
    (store : List Record) (e : Entry)
    (hkey : ¬ e.key = "")
    (hfresh : keyTaken store e.key = false)
    (hgen : generate_custom_key (addPrep e) fmt 0 = none) :
    BibDB.add fmt store e =
      some ⟨true,
        store ++ [⟨e.key, none, field_to_unicode (addPrep e) "author",
          field_to_unicode (addPrep e) "title", addVenue (addPrep e),
          addYearStr (addPrep e), single_entry_to_fulltext (addPrep e) none⟩],
        false⟩ := by
  unfold BibDB.add
  rw [if_neg (by simpa using hkey)]
  rw [show addFuel = 59 + 1 from rfl]
  rw [addLoop_first_success fmt (addPrep e) e.key _ _ _ _ store 59 hfresh
    (by rw [hgen]; rfl)]
  rw [hgen]

def eNoYear : Entry := ⟨"nokey1", [("author", "Smith, John"), ("title", "Deep")]⟩

/-- Witness for C5: a concrete entry with no year field. -/
theorem add_keygen_failure_null_custom_key_witness :
    (¬ eNoYear.key = "") ∧
    (keyTaken [] eNoYear.key = false) ∧
    (generate_custom_key (addPrep eNoYear) defaultKeyFormat 0 = none) ∧
    BibDB.add defaultKeyFormat [] eNoYear =
      some ⟨true,
        [⟨eNoYear.key, none, field_to_unicode (addPrep eNoYear) "author",
          field_to_unicode (addPrep eNoYear) "title",
          addVenue (addPrep eNoYear), addYearStr (addPrep eNoYear),
          single_entry_to_fulltext (addPrep eNoYear) none⟩],
        false⟩ :=
  ⟨by decide, by decide, by decide,
   add_keygen_failure_null_custom_key defaultKeyFormat [] eNoYear (by decide)
     (by decide) (by decide)⟩

/-- C5 counterexample: for the concrete no-year entry the claim's asserted
outcome - custom_key equal to the primary key - is false: the record is
stored with custom_key NULL (Python None), which is not "nokey1". -/
theorem keygen_failure_counterexample :
    ((BibDB.add defaultKeyFormat [] eNoYear).map
        (fun o => (o.added, o.store.map (fun r => (r.key, r.custom_key)))) =
      some (true, [("nokey1", none)])) ∧
    (none : Option String) ≠ some "nokey1" := by
  constructor
  · decide
  · decide

/-! ## C9: rename conflict -/

def recA : Record :=
  ⟨"a", some "ca", "", "T1", "", "2000",
   single_entry_to_fulltext ⟨"a", [("title", "T1")]⟩ none⟩

def recB : Record :=
  ⟨"b", some "cb", "", "T2", "", "2001",
   single_entry_to_fulltext ⟨"b", [("title", "T2")]⟩ none⟩

/-- C9 counterexample: renaming record A's custom key to record B's
existing custom key does not surface a catchable KeyConflict to the caller:
the source's bare `except:` around the UPDATE logs the collision and calls
sys.exit(1), i.e. the core itself terminates the process (the procExitOne
outcome, distinct from both the normal and the raised-error outcomes of the
model). The store is unchanged. -/
theorem rename_conflict_counterexample :
    BibDB.update_custom_key [recA, recB] "a" "cb" =
      RenameOutcome.procExitOne [recA, recB] := by
  decide

/-- C9 as amended: for every store containing a record with the requested
original key while a different record already holds the requested new
custom key, update_custom_key terminates the process with exit code 1
after logging (instead of surfacing a KeyConflict error), and neither
record's stored data changes - the store is returned untouched. -/
theorem rename_conflict_exits_store_unchanged (store : List Record)
    (oK nK : String)
    (hA : ∃ r ∈ store, r.key = oK)
    (hB : ∃ r ∈ store, r.custom_key = some nK ∧ r.key ≠ oK) :
    BibDB.update_custom_key store oK nK = RenameOutcome.procExitOne store := by
  unfold BibDB.update_custom_key
  have hfind : (store.find? (fun r => r.key == oK)).isSome := by
    rw [List.find?_isSome]
    obtain ⟨r, hr, hre⟩ := hA
    exact ⟨r, hr, by simp [hre]⟩
  rcases hf : store.find? (fun r => r.key == oK) with _ | r
  · rw [hf] at hfind
    exact absurd hfind (by simp)
  · simp only [hf]
    have hg : (store.any fun q =>
        !(q.key == oK) && (q.custom_key == some nK)) = true := by
      rw [List.any_eq_true]
      obtain ⟨q, hq, hqc, hqk⟩ := hB
      exact ⟨q, hq, by simp [hqc, hqk]⟩
    rw [if_pos hg]

/-- Witness for C9 at the concrete two-record store. -/
theorem rename_conflict_exits_witness :
    (∃ r ∈ [recA, recB], r.key = "a") ∧
    (∃ r ∈ [recA, recB], r.custom_key = some "cb" ∧ r.key ≠ "a") ∧
    BibDB.update_custom_key [recA, recB] "a" "cb" =
      RenameOutcome.procExitOne [recA, recB] :=
  ⟨by decide, by decide,
   rename_conflict_exits_store_unchanged [recA, recB] "a" "cb" (by decide)
     (by decide)⟩

/-! ## C6 and C7: the search result cache -/

/-- An engine that returns one row for the translated query "deep" and no
rows for any other match expression (in particular for the empty one). -/
def engineC6 : String → List (String × String) :=
  fun e => if e = "\"deep\"" then [("ft1", "k1")] else []

def engineLikeC6 : String → List String → List (String × String) :=
  fun _ _ => []

/-- C6 counterexample: the replay conjunct fails for the
src/bibsearch/bibdb.py revision of search that the claim cites. A
non-empty search caches its row [("ft1", "k1")], but an empty-term search
performed immediately afterwards through the same revision does not return
that sequence: it has no empty-term special case, translates the empty
term list to the empty match expression, queries the backend
(executed = some ""), and returns - and re-caches - the backend's rows for
"" instead of the cached result. -/
theorem cache_replay_counterexample :
    (searchV2 true engineC6 engineLikeC6 [] none ["deep"] =
      .ok ⟨some [("ft1", "k1")], some [("ft1", "k1")], some "\"deep\""⟩) ∧
    (searchV2 true engineC6 engineLikeC6 [] (some [("ft1", "k1")]) [] =
      .ok ⟨some [], some [], some ""⟩) ∧
    (some ([] : List (String × String)) ≠ some [("ft1", "k1")]) := by
  refine ⟨by decide, by decide, by decide⟩

/-- C6 as amended: cache write-through and replay round-trip. For every
backend row function, macro table, prior cache state and non-empty term
list whose translation succeeds: the search returns exactly the backend's
(fulltext, primary_key) rows and overwrites the cache with exactly those
rows - including when the backend returns zero rows, since `engine expr`
may be the empty list - and this unconditional overwrite holds in both
revisions of search. The replay half - an empty-term search performed
immediately afterwards returns exactly the same result sequence without
touching the backend - holds for the src/bibdb.py revision; the
src/bibsearch/bibdb.py revision does not replay (its empty-term search
queries the backend; callers replay via load_search_cache instead). -/
theorem search_cache_roundtrip (engine : String → List (String × String))
    (macros : List (String × String))
    (cache : Option (List (String × String))) (terms : List String)
    (expr : String) (hne : terms ≠ [])
    (hfmt : formatQueryFts macros terms = .ok expr) :
    (searchV1 engine macros cache terms =
      .ok ⟨some (engine expr), some (engine expr), some expr⟩) ∧
    (searchV1 engine macros (some (engine expr)) [] =
      .ok ⟨some (engine expr), some (engine expr), none⟩) ∧
    (∀ engineLike c0, searchV2 true engine engineLike macros c0 terms =
      .ok ⟨some (engine expr), some (engine expr), some expr⟩) := by
  have hni : terms.isEmpty = false := by
    cases terms with
    | nil => exact absurd rfl hne
    | cons a l => rfl
  refine ⟨?_, rfl, fun engineLike c0 => ?_⟩
  · rw [searchV1, hni]
    simp [hfmt]
  · rw [searchV2]
    simp [hfmt]

def engineW : String → List (String × String) := fun _ => [("ftw", "kw")]

/-- Witness for C6 at a concrete one-term search. -/
theorem search_cache_roundtrip_witness :
    (["deep"] ≠ ([] : List String)) ∧
    (formatQueryFts [] ["deep"] = .ok "\"deep\"") ∧
    (searchV1 engineW [] none ["deep"] =
      .ok ⟨some [("ftw", "kw")], some [("ftw", "kw")], some "\"deep\""⟩) :=
  ⟨by decide, by decide,
   (search_cache_roundtrip engineW [] none ["deep"] "\"deep\"" (by decide)
     (by decide)).1⟩

def engineC7 : String → List (String × String) := fun _ => [("f1", "k1")]

def engineLikeC7 : String → List String → List (String × String) :=
  fun _ _ => []

/-- C7 counterexample: in the src/bibsearch/bibdb.py revision, search with
an empty term list does not return the replayed cache and does query the
backend: the empty term list translates to the empty match expression,
which is sent to the full-text engine (executed = some ""), and the
engine's rows - not the cache contents - are returned and even overwrite
the cache. (Against a real fts5 engine the empty MATCH expression is a
syntax error, so this call errors rather than replaying the cache.) -/
theorem empty_search_counterexample :
    (searchV2 true engineC7 engineLikeC7 [] (some [("c0", "ck0")]) [] =
      .ok ⟨some [("f1", "k1")], some [("f1", "k1")], some ""⟩) ∧
    (some [("f1", "k1")] : Option (List (String × String))) ≠
      some [("c0", "ck0")] := by
  constructor
  · decide
  · decide

/-- C7 as amended: in the src/bibdb.py revision, search with an empty term
list returns the loaded cache - the cache contents when a cache file
exists, and Python None (an empty falsy value, not a list) when none does -
never raises and never queries the backend (executed = none). The
src/bibsearch/bibdb.py revision, by contrast, has no empty-term special
case: it unconditionally translates (to the empty match expression) and
queries the backend. -/
theorem empty_search_replays_cache
    (engine : String → List (String × String))
    (engineLike : String → List String → List (String × String))
    (macros : List (String × String))
    (cache : Option (List (String × String))) :
    (searchV1 engine macros cache [] = .ok ⟨cache, cache, none⟩) ∧
    (searchV2 true engine engineLike macros cache [] =
      .ok ⟨some (engine ""), some (engine ""), some ""⟩) :=
  ⟨rfl, rfl⟩

/-! ## C8: unknown-field handling in the translators -/

/-- C8 counterexample: the term "foo:bar" has a field outside
\x7bauthor, title, venue, year, key\x7d, yet neither query dialect's
translator reports an error: the full-text translator silently wraps it as
the literal phrase "foo:bar" (matched against all indexed fields), and the
LIKE fallback translator silently turns it into a broad OR-of-LIKEs over
every column. -/
theorem unknown_field_counterexample :
    (formatQueryFts [] ["foo:bar"] = .ok "\"foo:bar\"") ∧
    (formatQueryNoFts ["foo:bar"] =
      .ok ("((author LIKE ?) OR (title LIKE ?) OR (venue LIKE ?) OR (year LIKE ?) OR (key LIKE ?) OR (custom_key LIKE ?))",
        ["%foo:bar%", "%foo:bar%", "%foo:bar%", "%foo:bar%", "%foo:bar%",
         "%foo:bar%"])) := by
  constructor
  · decide
  · decide

lemma splitOnceChar_append (c : Char) (a b : List Char) (ha : c ∉ a) :
    splitOnceChar c (a ++ c :: b) = some (a, b) := by
  induction a with
  | nil => simp [splitOnceChar]
  | cons x xs ih =>
    rw [List.cons_append, splitOnceChar]
    rw [if_neg (fun h => ha (by rw [← h]; exact List.mem_cons_self x xs))]
    rw [ih (fun h => ha (List.mem_cons_of_mem x h))]
    rfl

lemma data_field_colon_value (field value : String) :
    (field ++ ":" ++ value).data = field.data ++ ':' :: value.data := by
  rw [String.data_append, String.data_append]
  rw [List.append_assoc]
  rfl

lemma splitOnceStr_field_value (field value : String)
    (h : ':' ∉ field.data) :
    splitOnceStr ':' (field ++ ":" ++ value) = some (field, value) := by
  rw [splitOnceStr, data_field_colon_value, splitOnceChar_append ':' _ _ h]
  rfl

/-- C8 as amended: only the `where` fallback command (src/bibdb.py lines
158-187) validates the field of a field:value term against
\x7bauthor, title, venue, year, key\x7d, exiting with an error on an
unknown field. The full-text translator and the LIKE fallback translator
never error on an unknown field: a term failing their known-prefix tests is
treated as an unqualified term and translated into a broad match. -/
theorem unknown_field_broad_match (field value : String)
    (hcol : ':' ∉ field.data)
    (hfts : ftsFieldGuard (field ++ ":" ++ value) = false)
    (hnof : noFtsFieldGuard (field ++ ":" ++ value) = false)
    (hunk : field ∉ (["key", "author", "title", "venue", "year"] :
      List String)) :
    (∃ s, formatQueryFts [] [field ++ ":" ++ value] = .ok s) ∧
    (∃ p, formatQueryNoFts [field ++ ":" ++ value] = .ok p) ∧
    processWhereTerm (field ++ ":" ++ value) = .error .exitOne := by
  have hdata := data_field_colon_value field value
  refine ⟨?_, ?_, ?_⟩
  · have hterm : ∃ s,
        processFtsTerm [] (field ++ ":" ++ value) = .ok s := by
      rw [processFtsTerm]
      have hl : lookupAssoc [] (field ++ ":" ++ value) = none := rfl
      rw [hl, if_neg (by simp [hfts])]
      rcases hdd : (field ++ ":" ++ value).data with _ | ⟨c, rest⟩
      · rw [hdata] at hdd
        exact absurd hdd (by simp)
      · by_cases hq : c ≠ dquote ∧ (c :: rest).getLast? ≠ some dquote
        · refine ⟨quoteWrap (field ++ ":" ++ value), ?_⟩
          show (if c ≠ dquote ∧ (c :: rest).getLast? ≠ some dquote then
              Except.ok (quoteWrap (field ++ ":" ++ value))
            else Except.ok (field ++ ":" ++ value)) = _
          rw [if_pos hq]
        · refine ⟨field ++ ":" ++ value, ?_⟩
          show (if c ≠ dquote ∧ (c :: rest).getLast? ≠ some dquote then
              Except.ok (quoteWrap (field ++ ":" ++ value))
            else Except.ok (field ++ ":" ++ value)) = _
          rw [if_neg hq]
    obtain ⟨s, hs⟩ := hterm
    refine ⟨s, ?_⟩
    simp only [formatQueryFts, processFtsTerms, hs]
    rfl
  · have hb : processNoFtsTerm (field ++ ":" ++ value) =
        .ok ("((author LIKE ?) OR (title LIKE ?) OR (venue LIKE ?) OR (year LIKE ?) OR (key LIKE ?) OR (custom_key LIKE ?))",
          ["%" ++ (field ++ ":" ++ value) ++ "%",
           "%" ++ (field ++ ":" ++ value) ++ "%",
           "%" ++ (field ++ ":" ++ value) ++ "%",
           "%" ++ (field ++ ":" ++ value) ++ "%",
           "%" ++ (field ++ ":" ++ value) ++ "%",
           "%" ++ (field ++ ":" ++ value) ++ "%"]) := by
      rw [processNoFtsTerm, if_pos (by simp [hnof])]
      rfl
    refine ⟨("((author LIKE ?) OR (title LIKE ?) OR (venue LIKE ?) OR (year LIKE ?) OR (key LIKE ?) OR (custom_key LIKE ?))",
      ["%" ++ (field ++ ":" ++ value) ++ "%",
       "%" ++ (field ++ ":" ++ value) ++ "%",
       "%" ++ (field ++ ":" ++ value) ++ "%",
       "%" ++ (field ++ ":" ++ value) ++ "%",
       "%" ++ (field ++ ":" ++ value) ++ "%",
       "%" ++ (field ++ ":" ++ value) ++ "%"]), ?_⟩
    simp only [formatQueryNoFts, processNoFtsTerms, hb]
    rfl
  · have h1 : field ≠ "key" := fun h => hunk (by rw [h]; decide)
    have h2 : field ≠ "author" := fun h => hunk (by rw [h]; decide)
    have h3 : field ≠ "title" := fun h => hunk (by rw [h]; decide)
    have h4 : field ≠ "venue" := fun h => hunk (by rw [h]; decide)
    have h5 : field ≠ "year" := fun h => hunk (by rw [h]; decide)
    simp only [processWhereTerm, splitOnceStr_field_value field value hcol]
    rw [if_neg (by simp [h1]), if_neg (by simp [h2]), if_neg (by simp [h3]),
      if_neg (by simp [h4]), if_neg (by simp [h5])]

/-- Witness for C8 at the concrete term "foo:bar". -/
theorem unknown_field_broad_match_witness :
    (':' ∉ ("foo" : String).data) ∧
    (ftsFieldGuard ("foo" ++ ":" ++ "bar") = false) ∧
    (noFtsFieldGuard ("foo" ++ ":" ++ "bar") = false) ∧
    (("foo" : String) ∉ (["key", "author", "title", "venue", "year"] :
      List String)) ∧
    ((∃ s, formatQueryFts [] ["foo" ++ ":" ++ "bar"] = .ok s) ∧
     (∃ p, formatQueryNoFts ["foo" ++ ":" ++ "bar"] = .ok p) ∧
     processWhereTerm ("foo" ++ ":" ++ "bar") = .error .exitOne) :=
  ⟨by decide, by decide, by decide, by decide,
   unknown_field_broad_match "foo" "bar" (by decide) (by decide) (by decide)
     (by decide)⟩

/-! ## C10: the full-text translator is not total -/

/-- C10: the full-text query translator raises instead of returning a
filter expression on some non-empty term lists: the term "yearly" passes
the colon-less "year" prefix test and then fails the 2-ary field/value
split (a ValueError), and the empty-string term fails the leading-quote
index check (an IndexError). This holds for both line-identical revisions
of the translator (_format_query and _format_query_fts). -/
theorem fts_translator_not_total :
    (formatQueryFts [] ["yearly"] = .error .valueError) ∧
    (formatQueryFts [] [""] = .error .indexError) := by
  constructor
  · decide
  · decide

end Bibsearch
